import Mathlib

/-!
Verification of the concurrency-control core of the AgrisaleWS business
ledger: the SQLite connection pool (`server/database.py`), its retry layer,
and the optimistic-concurrency stock mutation protocol used by the product,
purchase and sale endpoints (`server/routers/products.py`,
`server/routers/purchases.py`, `server/routers/sales.py`).

Modeling conventions:
* stock quantities and deltas are modeled as integers (the sources use Python
  floats, but every property at issue only uses exact `+`/`-`/ordering);
* a raised `HTTPException` is modeled as an `Except.error` carrying the status;
  the surrounding transaction scope rolls the store back on any exception, so
  the post-request table state is the pre-request one on error;
* times (busy waits, retry delays) are modeled in integer milliseconds.
-/

namespace AgrisaleWS

/-- A row of the `products` table (the QuantityEntity).  `version` is the
stored integer; `0` stands for a falsy stored value (`NULL` or `0`), which the
source replaces by `1` when read (`row[4] if row[4] else 1`). -/
structure Product where
  id : Int
  userId : Int
  workspaceId : Option Int
  name : String
  stock : Int
  version : Int
deriving Repr, DecidableEq

/-- The row filter used to locate a product row by id: workspace mode filters
on `id = ? AND workspaceId = ?`, legacy mode on `id = ? AND userId = ?`
(products.py lines 782-797). -/
def ownerWhere (workspace_id : Option Int) (user_id product_id : Int) (p : Product) : Bool :=
  match workspace_id with
  | some wid => p.id == product_id && p.workspaceId == some wid
  | none => p.id == product_id && p.userId == user_id

/-- `row[...] if row[...] else 1`: a falsy stored version (0 / NULL) reads as 1. -/
def effVersion (v : Int) : Int := if v = 0 then 1 else v

/-- A conditional UPDATE on the products table:
`SET stock = ?, version = version + 1 WHERE cond`; returns the updated table
together with the number of affected rows (`cursor.rowcount`). -/
def condUpdateStock (db : List Product) (cond : Product → Bool) (newStock : Int) :
    List Product × Nat :=
  (db.map fun p => if cond p then { p with stock := newStock, version := p.version + 1 } else p,
   (db.filter cond).length)

/-- The HTTPException failures raised by the embedded endpoints. -/
inductive ApiErr where
  | notFound
  | versionConflict
  | insufficientStock
  | badRequest
deriving Repr, DecidableEq

/-- HTTP status code attached to each failure by the source. -/
def ApiErr.status : ApiErr → Nat
  | .notFound => 404
  | .versionConflict => 409
  | .insufficientStock => 400
  | .badRequest => 400

/-- `update_product_stock` (products.py lines 755-914), the optimistic-lock
stock adjustment endpoint.  `σr` is the table snapshot the in-transaction
SELECT reads; `σw` is the table state the conditional UPDATE executes against
(they differ exactly when another writer commits between the read and the
write); `totalChanges` is `conn.total_changes` before the UPDATE — the
cumulative row-change counter of the pooled connection, which is what the
post-write conflict check inspects (`if conn.total_changes == 0`). -/
def update_product_stock (σr σw : List Product) (totalChanges : Nat)
    (product_id quantity version : Int)
    (workspace_id : Option Int) (user_id : Int) :
    Except ApiErr (List Product) :=
  match σr.find? (ownerWhere workspace_id user_id product_id) with
  | none => .error .notFound
  | some row =>
    let current_stock := row.stock
    let current_version := effVersion row.version
    if version ≠ current_version then .error .versionConflict
    else
      let new_stock := current_stock + quantity
      if new_stock < 0 then .error .insufficientStock
      else
        let res := condUpdateStock σw
          (fun p => ownerWhere workspace_id user_id product_id p && p.version == current_version)
          new_stock
        if totalChanges + res.2 = 0 then .error .versionConflict
        else .ok res.1

/-- Table state after the request completes: a success commits the updated
table, an HTTPException rolls the transaction back (`get_connection` rolls
back on any exception), leaving the store as it was at the write. -/
def txnResult (σw : List Product) (r : Except ApiErr (List Product)) : List Product :=
  match r with
  | .ok db => db
  | .error _ => σw

/-- A row of the `purchases` table (stock-relevant columns; the date, price
and note metadata play no role in any stock/version property). -/
structure Purchase where
  id : Int
  userId : Int
  workspaceId : Option Int
  productName : String
  quantity : Int
deriving Repr, DecidableEq

/-- A row of the `sales` table (stock-relevant columns). -/
structure Sale where
  id : Int
  userId : Int
  workspaceId : Option Int
  productName : String
  quantity : Int
deriving Repr, DecidableEq

/-- Product lookup by name: `WHERE workspaceId = ? AND name = ?` in workspace
mode, `WHERE userId = ? AND name = ?` in legacy mode. -/
def nameWhere (workspace_id : Option Int) (user_id : Int) (name : String) (p : Product) : Bool :=
  match workspace_id with
  | some wid => p.workspaceId == some wid && p.name == name
  | none => p.userId == user_id && p.name == name

/-- Purchase-row filter: `id = ? AND workspaceId = ?` / `id = ? AND userId = ?`. -/
def purchaseWhere (workspace_id : Option Int) (user_id purchase_id : Int) (q : Purchase) : Bool :=
  match workspace_id with
  | some wid => q.id == purchase_id && q.workspaceId == some wid
  | none => q.id == purchase_id && q.userId == user_id

/-- Sale-row filter: `id = ? AND workspaceId = ?` / `id = ? AND userId = ?`. -/
def saleWhere (workspace_id : Option Int) (user_id sale_id : Int) (q : Sale) : Bool :=
  match workspace_id with
  | some wid => q.id == sale_id && q.workspaceId == some wid
  | none => q.id == sale_id && q.userId == user_id

/-- Rollback semantics of the per-request transaction for the ledger
endpoints: a success commits the written pair of tables, any HTTPException
rolls both tables back to their pre-transaction state. -/
def txn2Result {β : Type} (σw : List Product) (tbl : List β)
    (r : Except ApiErr (List Product × List β)) : List Product × List β :=
  match r with
  | .ok s => s
  | .error _ => (σw, tbl)

/-- `create_purchase` (purchases.py lines 258-507), stock-relevant slice:
validate the product, reject a return (negative quantity) exceeding stock,
insert the purchase row, apply the delta under the optimistic version check.
Supplier validation and the metadata columns are omitted (they never touch
stock or version). -/
def create_purchase (σ : List Product) (P : List Purchase) (newId : Int)
    (productName : String) (quantity : Int)
    (workspace_id : Option Int) (user_id : Int) :
    Except ApiErr (List Product × List Purchase) :=
  match σ.find? (nameWhere workspace_id user_id productName) with
  | none => .error .badRequest
  | some product =>
    if quantity < 0 && product.stock < -quantity then .error .insufficientStock
    else
      let P2 := P ++ [⟨newId, user_id, workspace_id, productName, quantity⟩]
      let new_stock := product.stock + quantity
      if new_stock < 0 then .error .insufficientStock
      else
        let res := condUpdateStock σ
          (fun q => ownerWhere workspace_id user_id product.id q && q.version == product.version)
          new_stock
        if res.2 = 0 then .error .versionConflict
        else .ok (res.1, P2)

/-- `create_sale` (sales.py lines 258-502), stock-relevant slice: validate the
product, reject a sale exceeding stock, insert the sale row, subtract the
quantity under the optimistic version check. -/
def create_sale (σ : List Product) (S : List Sale) (newId : Int)
    (productName : String) (quantity : Int)
    (workspace_id : Option Int) (user_id : Int) :
    Except ApiErr (List Product × List Sale) :=
  match σ.find? (nameWhere workspace_id user_id productName) with
  | none => .error .badRequest
  | some product =>
    if product.stock < quantity then .error .insufficientStock
    else
      let S2 := S ++ [⟨newId, user_id, workspace_id, productName, quantity⟩]
      let new_stock := product.stock - quantity
      if new_stock < 0 then .error .insufficientStock
      else
        let res := condUpdateStock σ
          (fun q => ownerWhere workspace_id user_id product.id q && q.version == product.version)
          new_stock
        if res.2 = 0 then .error .versionConflict
        else .ok (res.1, S2)

/-- `delete_purchase` (purchases.py lines 915-1095), stock-relevant slice.
Deleting a purchase "restores" the product stock by subtracting the purchased
quantity and then deletes the row; if the product no longer exists the row is
deleted alone.  Unlike every other stock-mutating path in the repository,
there is no `new_stock < 0` check before the conditional write. -/
def delete_purchase (σ : List Product) (P : List Purchase)
    (purchase_id : Int) (workspace_id : Option Int) (user_id : Int) :
    Except ApiErr (List Product × List Purchase) :=
  match P.find? (purchaseWhere workspace_id user_id purchase_id) with
  | none => .error .notFound
  | some r =>
    let P2 := P.filter (fun q => !(purchaseWhere workspace_id user_id purchase_id q))
    match σ.find? (nameWhere workspace_id user_id r.productName) with
    | none => .ok (σ, P2)
    | some product =>
      let new_stock := product.stock - r.quantity
      let res := condUpdateStock σ
        (fun q => ownerWhere workspace_id user_id product.id q && q.version == product.version)
        new_stock
      if res.2 = 0 then .error .versionConflict
      else .ok (res.1, P2)

/-- The SQL SET clause of the purchase-row UPDATE: only the provided fields
are assigned. -/
def purchaseSet (productName? : Option String) (quantity? : Option Int) (r : Purchase) : Purchase :=
  { r with productName := productName?.getD r.productName,
           quantity := quantity?.getD r.quantity }

/-- The SQL SET clause of the sale-row UPDATE. -/
def saleSet (productName? : Option String) (quantity? : Option Int) (s : Sale) : Sale :=
  { s with productName := productName?.getD s.productName,
           quantity := quantity?.getD s.quantity }

/-- The final stock write of `update_purchase` (purchases.py lines 814-836):
negativity check, then the conditional UPDATE whose WHERE clause is always
`id = ? AND userId = ? AND version = ?` — it does **not** branch on
workspace mode, unlike every other write in the same endpoint. -/
def purchaseFinalStockWrite (db : List Product) (P2 : List Purchase)
    (product_id user_id product_version new_stock : Int) :
    Except ApiErr (List Product × List Purchase) :=
  if new_stock < 0 then .error .insufficientStock
  else
    let res := condUpdateStock db
      (fun q => q.id == product_id && q.userId == user_id && q.version == product_version)
      new_stock
    if res.2 = 0 then .error .versionConflict
    else .ok (res.1, P2)

/-- The final stock write of `update_sale` (sales.py lines 788-820):
negativity check, then the conditional UPDATE branching on workspace mode. -/
def saleFinalStockWrite (db : List Product) (S2 : List Sale)
    (workspace_id : Option Int) (user_id product_id product_version new_stock : Int) :
    Except ApiErr (List Product × List Sale) :=
  if new_stock < 0 then .error .insufficientStock
  else
    let res := condUpdateStock db
      (fun q => ownerWhere workspace_id user_id product_id q && q.version == product_version)
      new_stock
    if res.2 = 0 then .error .versionConflict
    else .ok (res.1, S2)

/-- `update_purchase` (purchases.py lines 510-912), stock-relevant slice.
`σr` is the table snapshot read before the transaction's first write; `σw` is
the state the in-transaction re-read and the conditional writes run against.
`otherFields` records whether any of the unmodeled metadata fields
(purchaseDate/supplierId/price/note) was provided (for the
"no fields to update" check).  When the product association changes, the old
product's adjustment is reversed and the new product's applied, both under
version checks, inside the same transaction. -/
def update_purchase (σr σw : List Product) (P : List Purchase)
    (purchase_id : Int) (productName? : Option String) (quantity? : Option Int)
    (otherFields : Bool) (workspace_id : Option Int) (user_id : Int) :
    Except ApiErr (List Product × List Purchase) :=
  match P.find? (purchaseWhere workspace_id user_id purchase_id) with
  | none => .error .notFound
  | some r =>
    let old_quantity := r.quantity
    let old_product_name := r.productName
    let new_quantity := quantity?.getD old_quantity
    let product_changed : Bool :=
      match productName? with
      | some n => n != old_product_name
      | none => false
    let lookupName := if product_changed then productName?.getD old_product_name else old_product_name
    match σr.find? (nameWhere workspace_id user_id lookupName) with
    | none => .error .badRequest
    | some np =>
      let product_id := np.id
      let current_stock := np.stock
      let product_version := np.version
      let quantity_diff := new_quantity - old_quantity
      let oldPreFail : Bool :=
        match σr.find? (nameWhere workspace_id user_id old_product_name) with
        | some op => if op.stock < old_quantity then true else false
        | none => false
      if product_changed && oldPreFail then .error .insufficientStock
      else if product_changed && (new_quantity < 0 && current_stock < -new_quantity) then
        .error .insufficientStock
      else if !product_changed && (quantity_diff < 0 && current_stock < -quantity_diff) then
        .error .insufficientStock
      else if productName?.isNone && quantity?.isNone && !otherFields then .error .badRequest
      else
        let P2 := P.map (fun q => if purchaseWhere workspace_id user_id purchase_id q
                                  then purchaseSet productName? quantity? q else q)
        if product_changed || quantity_diff != 0 then
          if product_changed then
            match σw.find? (nameWhere workspace_id user_id old_product_name) with
            | some op =>
              let old_new_stock := op.stock - old_quantity
              if old_new_stock < 0 then .error .insufficientStock
              else
                let res1 := condUpdateStock σw
                  (fun q => ownerWhere workspace_id user_id op.id q && q.version == op.version)
                  old_new_stock
                if res1.2 = 0 then .error .versionConflict
                else purchaseFinalStockWrite res1.1 P2 product_id user_id product_version
                  (current_stock + new_quantity)
            | none => purchaseFinalStockWrite σw P2 product_id user_id product_version
                (current_stock + new_quantity)
          else purchaseFinalStockWrite σw P2 product_id user_id product_version
            (current_stock + quantity_diff)
        else .ok (σw, P2)

/-- `update_sale` (sales.py lines 505-905), stock-relevant slice, mirroring
`update_purchase` with the sale sign convention
(`quantity_diff = old_quantity - new_quantity`) and with the final stock
write branching on workspace mode (unlike the purchase endpoint). -/
def update_sale (σr σw : List Product) (S : List Sale)
    (sale_id : Int) (productName? : Option String) (quantity? : Option Int)
    (otherFields : Bool) (workspace_id : Option Int) (user_id : Int) :
    Except ApiErr (List Product × List Sale) :=
  match S.find? (saleWhere workspace_id user_id sale_id) with
  | none => .error .notFound
  | some s =>
    let old_quantity := s.quantity
    let old_product_name := s.productName
    let new_quantity := quantity?.getD old_quantity
    let product_changed : Bool :=
      match productName? with
      | some n => n != old_product_name
      | none => false
    let lookupName := if product_changed then productName?.getD old_product_name else old_product_name
    match σr.find? (nameWhere workspace_id user_id lookupName) with
    | none => .error .badRequest
    | some np =>
      let product_id := np.id
      let current_stock := np.stock
      let product_version := np.version
      let quantity_diff := old_quantity - new_quantity
      if product_changed && (0 < new_quantity && current_stock < new_quantity) then
        .error .insufficientStock
      else if !product_changed &&
          (old_quantity < new_quantity && current_stock < new_quantity - old_quantity) then
        .error .insufficientStock
      else if productName?.isNone && quantity?.isNone && !otherFields then .error .badRequest
      else
        let S2 := S.map (fun q => if saleWhere workspace_id user_id sale_id q
                                  then saleSet productName? quantity? q else q)
        if product_changed || quantity_diff != 0 then
          if product_changed then
            match σw.find? (nameWhere workspace_id user_id old_product_name) with
            | some op =>
              let old_new_stock := op.stock + old_quantity
              let res1 := condUpdateStock σw
                (fun q => ownerWhere workspace_id user_id op.id q && q.version == op.version)
                old_new_stock
              if res1.2 = 0 then .error .versionConflict
              else saleFinalStockWrite res1.1 S2 workspace_id user_id product_id product_version
                (current_stock - new_quantity)
            | none => saleFinalStockWrite σw S2 workspace_id user_id product_id product_version
                (current_stock - new_quantity)
          else saleFinalStockWrite σw S2 workspace_id user_id product_id product_version
            (current_stock + quantity_diff)
        else .ok (σw, S2)

/-- The UPDATE statement of `update_product` (products.py lines 562-583):
assigns the provided fields, bumps `version = version + 1`, with a WHERE
clause on id and owner only — it carries no version condition. -/
def updateProductWrite (db : List Product) (cond : Product → Bool)
    (name? : Option String) (stock? : Option Int) : List Product :=
  db.map fun p =>
    if cond p then
      { p with name := name?.getD p.name, stock := stock?.getD p.stock,
               version := p.version + 1 }
    else p

/-- `update_product` (products.py lines 427-641), stock-relevant slice.  The
optimistic check is a pre-read comparison performed only when the caller
supplies `version`; the UPDATE statement itself has no version guard.  The
name-uniqueness probe always filters on `userId` (line 509).  Supplier
validation and the description/unit metadata are omitted; `otherFields`
records whether any of them was provided (for the "no fields" test).
`σr`/`σw` are the read-snapshot and write-time table states. -/
def update_product (σr σw : List Product) (product_id : Int)
    (name? : Option String) (stock? : Option Int) (version? : Option Int)
    (otherFields : Bool) (workspace_id : Option Int) (user_id : Int) :
    Except ApiErr (List Product) :=
  match σr.find? (ownerWhere workspace_id user_id product_id) with
  | none => .error .notFound
  | some row =>
    let current_version := effVersion row.version
    let versionMismatch : Bool :=
      match version? with
      | some v => v != current_version
      | none => false
    if versionMismatch then .error .versionConflict
    else
      let nameClash : Bool :=
        match name? with
        | some n =>
          if n != row.name then
            match σr.find? (fun p => p.userId == user_id && p.name == n && !(p.id == product_id)) with
            | some _ => true
            | none => false
          else false
        | none => false
      if nameClash then .error .badRequest
      else if name?.isNone && stock?.isNone && !otherFields then .error .badRequest
      else .ok (updateProductWrite σw (ownerWhere workspace_id user_id product_id) name? stock?)

/-- The shared pool counters of `SQLiteConnectionPool`:
`_active_connections` (a plain Python int, decremented and incremented under
`self._lock`) and the idle `Queue` size (capacity `max_connections`). -/
structure PoolSt where
  active : Int
  idle : Nat
deriving Repr, DecidableEq

/-- Program points of one request thread inside `_acquire_connection`
(database.py lines 1052-1090).  The idle-queue poll (`self._pool.get`) and
the lock-guarded counter update are two distinct critical sections in the
source — the queue has its own internal lock and `self._lock` is taken only
afterwards — so they are two distinct atomic steps here. -/
inductive AcqPC where
  | start
  | gotConn
  | sawEmpty
  | acquired
deriving Repr, DecidableEq

/-- A pool with its client threads. -/
structure PoolSys where
  pool : PoolSt
  thr : List AcqPC
deriving Repr, DecidableEq

/-- Interleaved small-step semantics of the pool as implemented: each
constructor is one critical section of `_acquire_connection` /
`_release_connection`.  `pollSuccess` removes a slot from the idle queue
(`self._pool.get` succeeded) but the `active` increment happens in a later,
separate `lockIncr` step, exactly as in the source; `lockCreate` creates a
new connection only under the `active < max_connections` check held under
`self._lock`; `lockCreateFull` is the same section when the bound check
fails, sending the thread back to re-poll. -/
inductive PoolStep (maxConn : Nat) : PoolSys → PoolSys → Prop where
  | pollSuccess (s : PoolSys) (i : Nat) (h : s.thr[i]? = some .start)
      (hidle : 1 ≤ s.pool.idle) :
      PoolStep maxConn s ⟨⟨s.pool.active, s.pool.idle - 1⟩, s.thr.set i .gotConn⟩
  | lockIncr (s : PoolSys) (i : Nat) (h : s.thr[i]? = some .gotConn) :
      PoolStep maxConn s ⟨⟨s.pool.active + 1, s.pool.idle⟩, s.thr.set i .acquired⟩
  | pollEmpty (s : PoolSys) (i : Nat) (h : s.thr[i]? = some .start)
      (hidle : s.pool.idle = 0) :
      PoolStep maxConn s ⟨s.pool, s.thr.set i .sawEmpty⟩
  | lockCreate (s : PoolSys) (i : Nat) (h : s.thr[i]? = some .sawEmpty)
      (hcap : s.pool.active < maxConn) :
      PoolStep maxConn s ⟨⟨s.pool.active + 1, s.pool.idle⟩, s.thr.set i .acquired⟩
  | lockCreateFull (s : PoolSys) (i : Nat) (h : s.thr[i]? = some .sawEmpty)
      (hcap : ¬ s.pool.active < maxConn) :
      PoolStep maxConn s ⟨s.pool, s.thr.set i .start⟩
  | releaseEnqueue (s : PoolSys) (i : Nat) (h : s.thr[i]? = some .acquired)
      (hq : s.pool.idle < maxConn) :
      PoolStep maxConn s ⟨⟨s.pool.active - 1, s.pool.idle + 1⟩, s.thr.set i .start⟩
  | releaseDiscard (s : PoolSys) (i : Nat) (h : s.thr[i]? = some .acquired) :
      PoolStep maxConn s ⟨⟨s.pool.active - 1, s.pool.idle⟩, s.thr.set i .start⟩

/-- Serialized (coarse-grained) pool semantics: each acquire runs its poll
and its counter update / creation check as one atomic step, i.e. the two
critical sections of `_acquire_connection` are not interleaved with other
threads.  `releaseRollbackError` is the release path whose defensive
rollback raises (counters untouched, slot lost). -/
inductive PoolAtomicStep (maxConn : Nat) : PoolSt → PoolSt → Prop where
  | takeIdle (s : PoolSt) (h : 1 ≤ s.idle) :
      PoolAtomicStep maxConn s ⟨s.active + 1, s.idle - 1⟩
  | create (s : PoolSt) (hidle : s.idle = 0) (hcap : s.active < maxConn) :
      PoolAtomicStep maxConn s ⟨s.active + 1, s.idle⟩
  | releaseEnqueue (s : PoolSt) (hq : s.idle < maxConn) :
      PoolAtomicStep maxConn s ⟨s.active - 1, s.idle + 1⟩
  | releaseDiscard (s : PoolSt) :
      PoolAtomicStep maxConn s ⟨s.active - 1, s.idle⟩
  | releaseRollbackError (s : PoolSt) :
      PoolAtomicStep maxConn s s

/-- The pool invariant maintained by the serialized semantics: live slots
(checked out plus idle) never exceed the bound. -/
def poolInv (maxConn : Nat) (s : PoolSt) : Prop := s.active + s.idle ≤ maxConn

/-- The polling loop of `_acquire_connection` as run by a single thread
against a statically saturated pool, time in milliseconds: a failed poll
blocks 100 ms (`self._pool.get(timeout=0.1)`), the retry sleep is 50 ms
(`time.sleep(0.05)`); when the elapsed time reaches `timeout` the loop
raises `ConnectionTimeoutError`.  `fuel` bounds the recursion. -/
inductive AcquireOutcome where
  | ok
  | timeoutErr
  | noFuel
deriving Repr, DecidableEq

def acquireLoop (maxConn : Nat) (timeout : Int) (active : Int) (idle : Nat) :
    Nat → Int → AcquireOutcome
  | 0, _ => .noFuel
  | fuel + 1, elapsed0 =>
    if 1 ≤ idle then .ok
    else if active < maxConn then .ok
    else
      let elapsed := elapsed0 + 100
      if timeout ≤ elapsed then .timeoutErr
      else acquireLoop maxConn timeout active idle fuel (elapsed + 50)

/-- `_release_connection` (database.py lines 1092-1122).  `rollbackRaises`
models the defensive `conn.rollback()` raising (the outer handler then just
closes the slot); `probeHealthy` is the `SELECT 1` liveness probe outcome;
the idle queue holds `idle` slots with capacity `maxConn`.  Returns the
(`active`, `idle`) counters after the call. -/
def release_connection (maxConn : Nat) (active : Int) (idle : Nat)
    (rollbackRaises probeHealthy : Bool) : Int × Nat :=
  if rollbackRaises then (active, idle)
  else
    let active2 := active - 1
    if !probeHealthy then (active2, idle)
    else if idle < maxConn then (active2, idle + 1)
    else (active2, idle)

/-- Outcome of one attempt of the operation run under `execute_with_retry`:
a returned value, a `DatabaseBusyError`, or any other exception. -/
inductive AttemptOutcome (α ε : Type) where
  | ok (v : α)
  | busy
  | fail (e : ε)
deriving Repr, DecidableEq

/-- Result of `execute_with_retry`: the returned value, the re-raised
`DatabaseBusyError`, a propagated non-busy exception, or the silent `None`
fall-through when the loop body never runs (`retry_attempts = 0`). -/
inductive RetryResult (α ε : Type) where
  | ok (v : α)
  | busy
  | fail (e : ε)
  | noAttempt
deriving Repr, DecidableEq

/-- The retry loop of `execute_with_retry` (database.py lines 1146-1165).
`outcomes k` is what the k-th execution of the query does; `attempt` is the
current loop index, `remaining` the attempts left.  Returns the result
together with the list of back-off sleeps performed (milliseconds): on
`DatabaseBusyError` at a non-final attempt it sleeps
`retry_delay * 2 ^ attempt` then retries; at the final attempt it re-raises;
any other exception propagates immediately with no further sleep or retry. -/
def runRetry {α ε : Type} (retry_delay : Int) (outcomes : Nat → AttemptOutcome α ε) :
    Nat → Nat → RetryResult α ε × List Int
  | _, 0 => (.noAttempt, [])
  | attempt, remaining + 1 =>
    match outcomes attempt with
    | .ok v => (.ok v, [])
    | .fail e => (.fail e, [])
    | .busy =>
      if remaining = 0 then (.busy, [])
      else
        let rest := runRetry retry_delay outcomes (attempt + 1) remaining
        (rest.1, retry_delay * 2 ^ attempt :: rest.2)

/-- `execute_with_retry` (database.py lines 1124-1168): run the query for up
to `retry_attempts` attempts starting at attempt 0. -/
def execute_with_retry {α ε : Type} (retry_delay : Int)
    (outcomes : Nat → AttemptOutcome α ε) (retry_attempts : Nat) :
    RetryResult α ε × List Int :=
  runRetry retry_delay outcomes 0 retry_attempts

theorem effVersion_of_pos {v : Int} (hv : 1 ≤ v) : effVersion v = v := by
  unfold effVersion
  rw [if_neg]
  omega

theorem ownerWhere_stockUpdate (wid : Option Int) (uid pid : Int) (ns : Int)
    (cond : Product → Bool) (p : Product) :
    ownerWhere wid uid pid
        (if cond p then { p with stock := ns, version := p.version + 1 } else p) =
      ownerWhere wid uid pid p := by
  by_cases h : cond p
  · cases wid <;> simp [ownerWhere, h]
  · simp [h]

theorem find?_condUpdateStock (wid : Option Int) (uid pid : Int) (ns : Int)
    (cond : Product → Bool) :
    ∀ db : List Product,
      (condUpdateStock db cond ns).1.find? (ownerWhere wid uid pid) =
        (db.find? (ownerWhere wid uid pid)).map
          (fun p => if cond p then { p with stock := ns, version := p.version + 1 } else p)
  | [] => rfl
  | p :: db => by
    have hhd : (condUpdateStock (p :: db) cond ns).1 =
        (if cond p then { p with stock := ns, version := p.version + 1 } else p) ::
          (condUpdateStock db cond ns).1 := by
      simp [condUpdateStock]
    rw [hhd]
    by_cases h : ownerWhere wid uid pid p
    · rw [List.find?_cons_of_pos _ (by rw [ownerWhere_stockUpdate]; exact h),
        List.find?_cons_of_pos _ h]
      rfl
    · rw [List.find?_cons_of_neg _ (by rw [ownerWhere_stockUpdate]; simpa using h),
        List.find?_cons_of_neg _ (by simpa using h)]
      exact find?_condUpdateStock wid uid pid ns cond db

theorem condUpdateStock_rowcount_pos {db : List Product} {cond : Product → Bool} {ns : Int}
    {p : Product} (hp : p ∈ db) (hc : cond p = true) :
    0 < (condUpdateStock db cond ns).2 := by
  have : p ∈ db.filter cond := List.mem_filter.mpr ⟨hp, hc⟩
  have := List.length_pos.mpr (List.ne_nil_of_mem this)
  simpa [condUpdateStock] using this

theorem condUpdateStock_zero_eq {db : List Product} {cond : Product → Bool} {ns : Int}
    (h : (db.filter cond).length = 0) : (condUpdateStock db cond ns).1 = db := by
  have hnil : db.filter cond = [] := List.length_eq_zero.mp h
  have hall : ∀ p ∈ db, cond p = false := by
    intro p hp
    have := List.filter_eq_nil_iff.mp hnil p hp
    simpa using this
  have : db.map
      (fun p => if cond p then { p with stock := ns, version := p.version + 1 } else p) =
      db.map id := by
    apply List.map_congr_left
    intro p hp
    simp [hall p hp]
  simpa [condUpdateStock] using this

/-- C1: a stock mutation through `update_product_stock` that supplies the
stale expected version `v - 1` against a product row currently at version `v`
fails with the 409 `VersionConflict`, and the rolled-back table — hence the
row's quantity and version — is unchanged. -/
theorem stale_version_conflict (σ : List Product) (totalChanges : Nat)
    (pid q uid v : Int) (wid : Option Int) (row : Product)
    (hfind : σ.find? (ownerWhere wid uid pid) = some row)
    (hver : row.version = v) (hv : 1 ≤ v) :
    update_product_stock σ σ totalChanges pid q (v - 1) wid uid = .error .versionConflict
    ∧ txnResult σ (update_product_stock σ σ totalChanges pid q (v - 1) wid uid) = σ
    ∧ ApiErr.versionConflict.status = 409 := by
  have heff : effVersion row.version = v := by
    rw [hver]
    exact effVersion_of_pos hv
  have hrun : update_product_stock σ σ totalChanges pid q (v - 1) wid uid =
      .error .versionConflict := by
    unfold update_product_stock
    rw [hfind]
    simp only [heff]
    rw [if_pos (by omega : v - 1 ≠ v)]
  exact ⟨hrun, by rw [hrun]; rfl, rfl⟩

theorem stale_version_conflict_witness :
    update_product_stock [⟨1, 7, none, "apple", 10, 3⟩] [⟨1, 7, none, "apple", 10, 3⟩] 5
        1 (-4) (3 - 1) none 7 = .error .versionConflict
    ∧ txnResult [⟨1, 7, none, "apple", 10, 3⟩]
        (update_product_stock [⟨1, 7, none, "apple", 10, 3⟩] [⟨1, 7, none, "apple", 10, 3⟩] 5
          1 (-4) (3 - 1) none 7) = [⟨1, 7, none, "apple", 10, 3⟩]
    ∧ ApiErr.versionConflict.status = 409 :=
  stale_version_conflict [⟨1, 7, none, "apple", 10, 3⟩] 5 1 (-4) 7 3 none
    ⟨1, 7, none, "apple", 10, 3⟩ rfl rfl (by decide)

/-- C4: a stock mutation whose expected version matches the row's current
version and whose delta keeps the stock non-negative succeeds, and the row
ends at exactly (stock + delta, version + 1) — the version grows by exactly 1
(in particular it never decreases). -/
theorem successful_mutation_result (σ : List Product) (totalChanges : Nat)
    (pid d uid v : Int) (wid : Option Int) (row : Product)
    (hfind : σ.find? (ownerWhere wid uid pid) = some row)
    (hver : row.version = v) (hv : 1 ≤ v)
    (hnn : 0 ≤ row.stock + d) :
    ∃ σ2, update_product_stock σ σ totalChanges pid d v wid uid = .ok σ2
      ∧ σ2.find? (ownerWhere wid uid pid) =
          some { row with stock := row.stock + d, version := v + 1 } := by
  have heff : effVersion row.version = v := by
    rw [hver]
    exact effVersion_of_pos hv
  have hcond : (fun p => ownerWhere wid uid pid p && p.version == v) row = true := by
    have h1 : ownerWhere wid uid pid row = true := List.find?_some hfind
    simp [h1, hver]
  have hpos : 0 < (condUpdateStock σ
      (fun p => ownerWhere wid uid pid p && p.version == v) (row.stock + d)).2 :=
    condUpdateStock_rowcount_pos (List.mem_of_find?_eq_some hfind) hcond
  refine ⟨(condUpdateStock σ
      (fun p => ownerWhere wid uid pid p && p.version == v) (row.stock + d)).1, ?_, ?_⟩
  · unfold update_product_stock
    rw [hfind]
    simp only [heff]
    rw [if_neg (by omega : ¬ v ≠ v), if_neg (by omega : ¬ row.stock + d < 0)]
    rw [if_neg (by omega : ¬ totalChanges +
      (condUpdateStock σ (fun p => ownerWhere wid uid pid p && p.version == v)
        (row.stock + d)).2 = 0)]
  · rw [find?_condUpdateStock, hfind, Option.map_some']
    rw [if_pos hcond, hver]

theorem successful_mutation_result_witness :
    ∃ σ2, update_product_stock [⟨1, 7, none, "apple", 10, 3⟩]
        [⟨1, 7, none, "apple", 10, 3⟩] 0 1 (-4) 3 none 7 = .ok σ2
      ∧ σ2.find? (ownerWhere none 7 1) = some ⟨1, 7, none, "apple", 6, 4⟩ :=
  successful_mutation_result [⟨1, 7, none, "apple", 10, 3⟩] 0 1 (-4) 7 3 none
    ⟨1, 7, none, "apple", 10, 3⟩ rfl rfl (by decide) (by decide)

/-- C8: the post-write conflict verification tests `conn.total_changes == 0`,
the connection-cumulative row-change counter, not the statement's own
affected-row count.  With the pre-read checks passing, a conditional UPDATE
that matches zero rows (another writer moved the version between the read
snapshot `σr` and the write state `σw`) is raised as a 409 only when the
cumulative counter is zero; on a connection with at least one prior row
change it is reported as success, with the table unchanged. -/
theorem total_changes_conflict_check (σr σw : List Product) (c : Nat)
    (pid d uid v : Int) (wid : Option Int) (row : Product)
    (hfind : σr.find? (ownerWhere wid uid pid) = some row)
    (hver : row.version = v) (hv : 1 ≤ v)
    (hnn : 0 ≤ row.stock + d)
    (hzero : (σw.filter (fun p => ownerWhere wid uid pid p && p.version == v)).length = 0) :
    (1 ≤ c → update_product_stock σr σw c pid d v wid uid = .ok σw)
    ∧ update_product_stock σr σw 0 pid d v wid uid = .error .versionConflict := by
  have heff : effVersion row.version = v := by
    rw [hver]
    exact effVersion_of_pos hv
  have hfix : (condUpdateStock σw
      (fun p => ownerWhere wid uid pid p && p.version == v) (row.stock + d)).1 = σw :=
    condUpdateStock_zero_eq hzero
  have hcnt : (condUpdateStock σw
      (fun p => ownerWhere wid uid pid p && p.version == v) (row.stock + d)).2 = 0 := by
    simpa [condUpdateStock] using hzero
  constructor
  · intro hc
    unfold update_product_stock
    rw [hfind]
    simp only [heff]
    rw [if_neg (by omega : ¬ v ≠ v), if_neg (by omega : ¬ row.stock + d < 0)]
    rw [if_neg (by omega : ¬ c + (condUpdateStock σw
      (fun p => ownerWhere wid uid pid p && p.version == v) (row.stock + d)).2 = 0)]
    rw [hfix]
  · unfold update_product_stock
    rw [hfind]
    simp only [heff]
    rw [if_neg (by omega : ¬ v ≠ v), if_neg (by omega : ¬ row.stock + d < 0)]
    rw [if_pos (by omega : 0 + (condUpdateStock σw
      (fun p => ownerWhere wid uid pid p && p.version == v) (row.stock + d)).2 = 0)]

theorem total_changes_conflict_check_witness :
    (1 ≤ 1 → update_product_stock [⟨1, 7, none, "apple", 10, 3⟩]
        [⟨1, 7, none, "apple", 6, 4⟩] 1 1 (-4) 3 none 7 = .ok [⟨1, 7, none, "apple", 6, 4⟩])
    ∧ update_product_stock [⟨1, 7, none, "apple", 10, 3⟩]
        [⟨1, 7, none, "apple", 6, 4⟩] 0 1 (-4) 3 none 7 = .error .versionConflict :=
  total_changes_conflict_check [⟨1, 7, none, "apple", 10, 3⟩] [⟨1, 7, none, "apple", 6, 4⟩]
    1 1 (-4) 7 3 none ⟨1, 7, none, "apple", 10, 3⟩ rfl rfl (by decide) (by decide) rfl

/-- C2 (code bug): non-negativity is violated by `delete_purchase`, which
applies the inverse delta with no `new_stock < 0` check.  Three accepted
mutations — create a purchase of 5 (stock 0 → 5), create a sale of 3
(stock 5 → 2), then delete the purchase — all succeed, and the last one
leaves the product at stock -3 < 0. -/
theorem delete_purchase_breaks_nonnegativity :
    create_purchase [⟨1, 7, none, "apple", 0, 1⟩] [] 11 "apple" 5 none 7 =
      .ok ([⟨1, 7, none, "apple", 5, 2⟩], [⟨11, 7, none, "apple", 5⟩])
    ∧ create_sale [⟨1, 7, none, "apple", 5, 2⟩] [] 21 "apple" 3 none 7 =
      .ok ([⟨1, 7, none, "apple", 2, 3⟩], [⟨21, 7, none, "apple", 3⟩])
    ∧ delete_purchase [⟨1, 7, none, "apple", 2, 3⟩] [⟨11, 7, none, "apple", 5⟩] 11 none 7 =
      .ok ([⟨1, 7, none, "apple", -3, 4⟩], [])
    ∧ (-3 : Int) < 0 :=
  ⟨rfl, rfl, rfl, by decide⟩

/-- C9: in workspace mode the final stock write of `update_purchase` filters
on `id = ? AND userId = ? AND version = ?` with the caller's user id, even
though the product row was looked up by `workspaceId`; for a workspace member
whose user id differs from the product row's `userId` the write matches zero
rows, so the update fails with the 409 conflict although the version it uses
is current, and both tables are left unchanged. -/
theorem workspace_update_purchase_userid_conflict
    (σ : List Product) (P : List Purchase) (purchase_id w uid nq : Int)
    (r : Purchase) (p : Product)
    (hfindP : P.find? (purchaseWhere (some w) uid purchase_id) = some r)
    (hfind : σ.find? (nameWhere (some w) uid r.productName) = some p)
    (huser : p.userId ≠ uid)
    (hid : ∀ q ∈ σ, q.id = p.id → q = p)
    (hchange : nq ≠ r.quantity)
    (hnn : 0 ≤ p.stock + (nq - r.quantity)) :
    update_purchase σ σ P purchase_id none (some nq) false (some w) uid =
      .error .versionConflict
    ∧ txn2Result σ P
        (update_purchase σ σ P purchase_id none (some nq) false (some w) uid) = (σ, P) := by
  have hnil : σ.filter (fun q => q.id == p.id && q.userId == uid && q.version == p.version) = [] := by
    rw [List.filter_eq_nil_iff]
    intro q hq hcondq
    simp only [Bool.and_eq_true, beq_iff_eq] at hcondq
    obtain ⟨⟨h1, h2⟩, _⟩ := hcondq
    exact huser ((hid q hq h1) ▸ h2)
  have hrun : update_purchase σ σ P purchase_id none (some nq) false (some w) uid =
      .error .versionConflict := by
    simp only [update_purchase, hfindP]
    simp only [Bool.false_and, Bool.false_eq_true, if_false, Option.getD_some, Option.isNone_none,
      Option.isNone_some, Bool.not_false, Bool.and_true, Bool.true_and, Bool.false_or, hfind]
    rw [if_neg (by simp only [Bool.and_eq_true, decide_eq_true_eq, not_and]; intro h1 h2; omega)]
    rw [if_pos (by simp only [bne_iff_ne, ne_eq]; omega)]
    unfold purchaseFinalStockWrite
    rw [if_neg (by omega : ¬ p.stock + (nq - r.quantity) < 0)]
    rw [if_pos (by simp [condUpdateStock, hnil])]
  exact ⟨hrun, by rw [hrun]; rfl⟩

theorem workspace_update_purchase_userid_conflict_witness :
    update_purchase [⟨1, 9, some 5, "apple", 10, 3⟩] [⟨1, 9, some 5, "apple", 10, 3⟩]
        [⟨4, 9, some 5, "apple", 2⟩] 4 none (some 3) false (some 5) 7 =
      .error .versionConflict
    ∧ txn2Result [⟨1, 9, some 5, "apple", 10, 3⟩] [⟨4, 9, some 5, "apple", 2⟩]
        (update_purchase [⟨1, 9, some 5, "apple", 10, 3⟩] [⟨1, 9, some 5, "apple", 10, 3⟩]
          [⟨4, 9, some 5, "apple", 2⟩] 4 none (some 3) false (some 5) 7) =
      ([⟨1, 9, some 5, "apple", 10, 3⟩], [⟨4, 9, some 5, "apple", 2⟩]) :=
  workspace_update_purchase_userid_conflict
    [⟨1, 9, some 5, "apple", 10, 3⟩] [⟨4, 9, some 5, "apple", 2⟩] 4 5 7 3
    ⟨4, 9, some 5, "apple", 2⟩ ⟨1, 9, some 5, "apple", 10, 3⟩ rfl rfl (by decide)
    (by intro q hq h; rw [List.mem_singleton] at hq; exact hq) (by decide) (by decide)

theorem filter_condUpdateStock_disjoint (db : List Product) (condA condB : Product → Bool)
    (ns oid pid : Int)
    (hA : ∀ q : Product, condA q = true → q.id = oid)
    (hB : ∀ q : Product, condB q = true → q.id = pid)
    (hne : oid ≠ pid)
    (h0 : db.filter condB = []) :
    (condUpdateStock db condA ns).1.filter condB = [] := by
  rw [List.filter_eq_nil_iff] at h0 ⊢
  intro x hx
  simp only [condUpdateStock, List.mem_map] at hx
  obtain ⟨q, hq, rfl⟩ := hx
  by_cases hc : condA q = true
  · rw [if_pos hc]
    intro hcb
    have h1 := hB _ hcb
    exact hne ((hA q hc) ▸ h1)
  · rw [if_neg hc]
    exact h0 q hq

theorem update_purchase_reassoc_conflict
    (σr σw : List Product) (P : List Purchase) (purchase_id uid : Int)
    (nameB : String) (r : Purchase) (np opr op : Product)
    (hfindP : P.find? (purchaseWhere none uid purchase_id) = some r)
    (hB : nameB ≠ r.productName)
    (hfindNew : σr.find? (nameWhere none uid nameB) = some np)
    (hfindOldr : σr.find? (nameWhere none uid r.productName) = some opr)
    (hpre : r.quantity ≤ opr.stock)
    (hq0 : 0 ≤ r.quantity)
    (hfindOldw : σw.find? (nameWhere none uid r.productName) = some op)
    (hrev : 0 ≤ op.stock - r.quantity)
    (hids : op.id ≠ np.id)
    (hnn : 0 ≤ np.stock + r.quantity)
    (h0 : σw.filter (fun q => q.id == np.id && q.userId == uid && q.version == np.version) = []) :
    update_purchase σr σw P purchase_id (some nameB) none false none uid =
      .error .versionConflict := by
  have hpc : (nameB != r.productName) = true := by simp [bne_iff_ne, hB]
  have hopmem : op ∈ σw := List.mem_of_find?_eq_some hfindOldw
  have hopuser : op.userId = uid := by
    have := List.find?_some hfindOldw
    simp only [nameWhere, Bool.and_eq_true, beq_iff_eq] at this
    exact this.1
  have hcondop : (fun q => ownerWhere none uid op.id q && q.version == op.version) op = true := by
    simp [ownerWhere, hopuser]
  have hrevpos : 0 < (condUpdateStock σw
      (fun q => ownerWhere none uid op.id q && q.version == op.version) (op.stock - r.quantity)).2 :=
    condUpdateStock_rowcount_pos hopmem hcondop
  have htrans : (condUpdateStock σw
      (fun q => ownerWhere none uid op.id q && q.version == op.version)
      (op.stock - r.quantity)).1.filter
        (fun q => q.id == np.id && q.userId == uid && q.version == np.version) = [] := by
    apply filter_condUpdateStock_disjoint _ _ _ _ op.id np.id _ _ hids h0
    · intro q hq
      simp only [ownerWhere, Bool.and_eq_true, beq_iff_eq] at hq
      exact hq.1.1
    · intro q hq
      simp only [Bool.and_eq_true, beq_iff_eq] at hq
      exact hq.1.1
  have hcnt2 : (condUpdateStock
      (condUpdateStock σw (fun q => ownerWhere none uid op.id q && q.version == op.version)
        (op.stock - r.quantity)).1
      (fun q => q.id == np.id && q.userId == uid && q.version == np.version)
      (np.stock + r.quantity)).2 = 0 := by
    simp only [condUpdateStock] at htrans ⊢
    rw [htrans]
    rfl
  simp only [update_purchase, hfindP]
  simp only [hpc, Bool.true_and, Bool.false_eq_true, if_false, if_true, Option.getD_some,
    Option.getD_none, Option.isNone_none, Option.isNone_some, Bool.not_false, Bool.and_true,
    Bool.false_and, Bool.false_or, Bool.true_or, Bool.not_true, Bool.and_false,
    hfindNew, hfindOldr, hfindOldw]
  rw [if_neg (by rw [if_neg (by omega : ¬ opr.stock < r.quantity)]; simp)]
  rw [if_neg (by simp only [Bool.and_eq_true, decide_eq_true_eq, not_and]; intro h1 h2; omega)]
  rw [if_neg (by omega : ¬ op.stock - r.quantity < 0)]
  rw [if_neg (by omega : ¬ (condUpdateStock σw
      (fun q => ownerWhere none uid op.id q && q.version == op.version)
      (op.stock - r.quantity)).2 = 0)]
  unfold purchaseFinalStockWrite
  rw [if_neg (by omega : ¬ np.stock + r.quantity < 0)]
  rw [if_pos hcnt2]

theorem update_sale_reassoc_conflict
    (σr σw : List Product) (S : List Sale) (sale_id uid : Int)
    (nameB : String) (s : Sale) (np op : Product)
    (hfindS : S.find? (saleWhere none uid sale_id) = some s)
    (hB : nameB ≠ s.productName)
    (hfindNew : σr.find? (nameWhere none uid nameB) = some np)
    (hsuff : s.quantity ≤ np.stock)
    (hfindOldw : σw.find? (nameWhere none uid s.productName) = some op)
    (hids : op.id ≠ np.id)
    (h0 : σw.filter (fun q => ownerWhere none uid np.id q && q.version == np.version) = []) :
    update_sale σr σw S sale_id (some nameB) none false none uid =
      .error .versionConflict := by
  have hpc : (nameB != s.productName) = true := by simp [bne_iff_ne, hB]
  have hopmem : op ∈ σw := List.mem_of_find?_eq_some hfindOldw
  have hopuser : op.userId = uid := by
    have := List.find?_some hfindOldw
    simp only [nameWhere, Bool.and_eq_true, beq_iff_eq] at this
    exact this.1
  have hcondop : (fun q => ownerWhere none uid op.id q && q.version == op.version) op = true := by
    simp [ownerWhere, hopuser]
  have hrevpos : 0 < (condUpdateStock σw
      (fun q => ownerWhere none uid op.id q && q.version == op.version) (op.stock + s.quantity)).2 :=
    condUpdateStock_rowcount_pos hopmem hcondop
  have htrans : (condUpdateStock σw
      (fun q => ownerWhere none uid op.id q && q.version == op.version)
      (op.stock + s.quantity)).1.filter
        (fun q => ownerWhere none uid np.id q && q.version == np.version) = [] := by
    apply filter_condUpdateStock_disjoint _ _ _ _ op.id np.id _ _ hids h0
    · intro q hq
      simp only [ownerWhere, Bool.and_eq_true, beq_iff_eq] at hq
      exact hq.1.1
    · intro q hq
      simp only [ownerWhere, Bool.and_eq_true, beq_iff_eq] at hq
      exact hq.1.1
  have hcnt2 : (condUpdateStock
      (condUpdateStock σw (fun q => ownerWhere none uid op.id q && q.version == op.version)
        (op.stock + s.quantity)).1
      (fun q => ownerWhere none uid np.id q && q.version == np.version)
      (np.stock - s.quantity)).2 = 0 := by
    simp only [condUpdateStock] at htrans ⊢
    rw [htrans]
    rfl
  simp only [update_sale, hfindS]
  simp only [hpc, Bool.true_and, Bool.false_eq_true, if_false, if_true, Option.getD_some,
    Option.getD_none, Option.isNone_none, Option.isNone_some, Bool.not_false, Bool.and_true,
    Bool.false_and, Bool.false_or, Bool.true_or, Bool.not_true, Bool.and_false,
    hfindNew, hfindOldw]
  rw [if_neg (by simp only [Bool.and_eq_true, decide_eq_true_eq, not_and]; intro h1 h2; omega)]
  rw [if_neg (by omega : ¬ (condUpdateStock σw
      (fun q => ownerWhere none uid op.id q && q.version == op.version)
      (op.stock + s.quantity)).2 = 0)]
  unfold saleFinalStockWrite
  rw [if_neg (by omega : ¬ np.stock - s.quantity < 0)]
  rw [if_pos hcnt2]

/-- C3: atomic re-association.  When a purchase or sale update changes which
product it targets, the reversal on the old product and the application on
the new product run inside one transaction; if the application's conditional
write matches zero rows (its version moved between the read snapshot and the
write), the endpoint raises the 409 conflict and the rollback leaves both
product rows and the ledger row exactly as they were — a partial
re-association is never observable. -/
theorem reassociation_rollback_atomic :
    (∀ (σr σw : List Product) (P : List Purchase) (purchase_id uid : Int)
        (nameB : String) (r : Purchase) (np opr op : Product),
      P.find? (purchaseWhere none uid purchase_id) = some r →
      nameB ≠ r.productName →
      σr.find? (nameWhere none uid nameB) = some np →
      σr.find? (nameWhere none uid r.productName) = some opr →
      r.quantity ≤ opr.stock →
      0 ≤ r.quantity →
      σw.find? (nameWhere none uid r.productName) = some op →
      0 ≤ op.stock - r.quantity →
      op.id ≠ np.id →
      0 ≤ np.stock + r.quantity →
      σw.filter (fun q => q.id == np.id && q.userId == uid && q.version == np.version) = [] →
      update_purchase σr σw P purchase_id (some nameB) none false none uid =
          .error .versionConflict
        ∧ txn2Result σw P
            (update_purchase σr σw P purchase_id (some nameB) none false none uid) = (σw, P))
    ∧ (∀ (σr σw : List Product) (S : List Sale) (sale_id uid : Int)
        (nameB : String) (s : Sale) (np op : Product),
      S.find? (saleWhere none uid sale_id) = some s →
      nameB ≠ s.productName →
      σr.find? (nameWhere none uid nameB) = some np →
      s.quantity ≤ np.stock →
      σw.find? (nameWhere none uid s.productName) = some op →
      op.id ≠ np.id →
      σw.filter (fun q => ownerWhere none uid np.id q && q.version == np.version) = [] →
      update_sale σr σw S sale_id (some nameB) none false none uid =
          .error .versionConflict
        ∧ txn2Result σw S
            (update_sale σr σw S sale_id (some nameB) none false none uid) = (σw, S)) := by
  constructor
  · intro σr σw P purchase_id uid nameB r np opr op h1 h2 h3 h4 h5 h6 h7 h8 h9 h10 h11
    have hrun := update_purchase_reassoc_conflict σr σw P purchase_id uid nameB r np opr op
      h1 h2 h3 h4 h5 h6 h7 h8 h9 h10 h11
    exact ⟨hrun, by rw [hrun]; rfl⟩
  · intro σr σw S sale_id uid nameB s np op h1 h2 h3 h4 h5 h6 h7
    have hrun := update_sale_reassoc_conflict σr σw S sale_id uid nameB s np op
      h1 h2 h3 h4 h5 h6 h7
    exact ⟨hrun, by rw [hrun]; rfl⟩

theorem reassociation_rollback_atomic_witness :
    (update_purchase [⟨1, 7, none, "A", 5, 2⟩, ⟨2, 7, none, "B", 4, 1⟩]
        [⟨1, 7, none, "A", 5, 2⟩, ⟨2, 7, none, "B", 9, 2⟩] [⟨11, 7, none, "A", 2⟩]
        11 (some "B") none false none 7 = .error .versionConflict
      ∧ txn2Result [⟨1, 7, none, "A", 5, 2⟩, ⟨2, 7, none, "B", 9, 2⟩] [⟨11, 7, none, "A", 2⟩]
          (update_purchase [⟨1, 7, none, "A", 5, 2⟩, ⟨2, 7, none, "B", 4, 1⟩]
            [⟨1, 7, none, "A", 5, 2⟩, ⟨2, 7, none, "B", 9, 2⟩] [⟨11, 7, none, "A", 2⟩]
            11 (some "B") none false none 7) =
        ([⟨1, 7, none, "A", 5, 2⟩, ⟨2, 7, none, "B", 9, 2⟩], [⟨11, 7, none, "A", 2⟩]))
    ∧ (update_sale [⟨1, 7, none, "A", 5, 2⟩, ⟨2, 7, none, "B", 4, 1⟩]
        [⟨1, 7, none, "A", 5, 2⟩, ⟨2, 7, none, "B", 9, 2⟩] [⟨21, 7, none, "A", 3⟩]
        21 (some "B") none false none 7 = .error .versionConflict
      ∧ txn2Result [⟨1, 7, none, "A", 5, 2⟩, ⟨2, 7, none, "B", 9, 2⟩] [⟨21, 7, none, "A", 3⟩]
          (update_sale [⟨1, 7, none, "A", 5, 2⟩, ⟨2, 7, none, "B", 4, 1⟩]
            [⟨1, 7, none, "A", 5, 2⟩, ⟨2, 7, none, "B", 9, 2⟩] [⟨21, 7, none, "A", 3⟩]
            21 (some "B") none false none 7) =
        ([⟨1, 7, none, "A", 5, 2⟩, ⟨2, 7, none, "B", 9, 2⟩], [⟨21, 7, none, "A", 3⟩])) :=
  ⟨reassociation_rollback_atomic.1
      [⟨1, 7, none, "A", 5, 2⟩, ⟨2, 7, none, "B", 4, 1⟩]
      [⟨1, 7, none, "A", 5, 2⟩, ⟨2, 7, none, "B", 9, 2⟩] [⟨11, 7, none, "A", 2⟩]
      11 7 "B" ⟨11, 7, none, "A", 2⟩ ⟨2, 7, none, "B", 4, 1⟩ ⟨1, 7, none, "A", 5, 2⟩
      ⟨1, 7, none, "A", 5, 2⟩ rfl (by decide) rfl rfl (by decide) (by decide) rfl
      (by decide) (by decide) (by decide) rfl,
    reassociation_rollback_atomic.2
      [⟨1, 7, none, "A", 5, 2⟩, ⟨2, 7, none, "B", 4, 1⟩]
      [⟨1, 7, none, "A", 5, 2⟩, ⟨2, 7, none, "B", 9, 2⟩] [⟨21, 7, none, "A", 3⟩]
      21 7 "B" ⟨21, 7, none, "A", 3⟩ ⟨2, 7, none, "B", 4, 1⟩ ⟨1, 7, none, "A", 5, 2⟩
      rfl (by decide) rfl (by decide) rfl (by decide) rfl⟩

theorem ownerWhere_productWrite (wid : Option Int) (uid pid : Int)
    (cond : Product → Bool) (name? : Option String) (stock? : Option Int) (p : Product) :
    ownerWhere wid uid pid
        (if cond p then
          { p with name := name?.getD p.name, stock := stock?.getD p.stock,
                   version := p.version + 1 }
        else p) =
      ownerWhere wid uid pid p := by
  by_cases h : cond p
  · cases wid <;> simp [ownerWhere, h]
  · simp [h]

theorem find?_updateProductWrite (wid : Option Int) (uid pid : Int)
    (cond : Product → Bool) (name? : Option String) (stock? : Option Int) :
    ∀ db : List Product,
      (updateProductWrite db cond name? stock?).find? (ownerWhere wid uid pid) =
        (db.find? (ownerWhere wid uid pid)).map
          (fun p => if cond p then
              { p with name := name?.getD p.name, stock := stock?.getD p.stock,
                       version := p.version + 1 }
            else p)
  | [] => rfl
  | p :: db => by
    have hhd : updateProductWrite (p :: db) cond name? stock? =
        (if cond p then
          { p with name := name?.getD p.name, stock := stock?.getD p.stock,
                   version := p.version + 1 }
        else p) :: updateProductWrite db cond name? stock? := by
      simp [updateProductWrite]
    rw [hhd]
    by_cases h : ownerWhere wid uid pid p
    · rw [List.find?_cons_of_pos _ (by rw [ownerWhere_productWrite]; exact h),
        List.find?_cons_of_pos _ h]
      rfl
    · rw [List.find?_cons_of_neg _ (by rw [ownerWhere_productWrite]; simpa using h),
        List.find?_cons_of_neg _ (by simpa using h)]
      exact find?_updateProductWrite wid uid pid cond name? stock? db

/-- C10: `update_product` performs its optimistic check only when the caller
supplies a version.  With `version` omitted, the write — including setting
the stock directly to any value ≥ 0 (the request model enforces `ge=0`) —
proceeds unconditionally and bumps the stored version by 1.  And even when a
version is supplied and the pre-read comparison passes, the UPDATE itself has
no version guard: it overwrites the write-time row `row2` whatever version
`row2` meanwhile reached. -/
theorem update_product_version_check_optional (σr σw : List Product) (pid uid s : Int)
    (wid : Option Int) (row row2 : Product)
    (hfr : σr.find? (ownerWhere wid uid pid) = some row)
    (hfw : σw.find? (ownerWhere wid uid pid) = some row2)
    (hs : 0 ≤ s) :
    (update_product σr σw pid none (some s) none false wid uid =
        .ok (updateProductWrite σw (ownerWhere wid uid pid) none (some s))
      ∧ (updateProductWrite σw (ownerWhere wid uid pid) none (some s)).find?
          (ownerWhere wid uid pid) =
        some { row2 with stock := s, version := row2.version + 1 })
    ∧ (update_product σr σw pid none (some s) (some (effVersion row.version)) false wid uid =
        .ok (updateProductWrite σw (ownerWhere wid uid pid) none (some s))
      ∧ (updateProductWrite σw (ownerWhere wid uid pid) none (some s)).find?
          (ownerWhere wid uid pid) =
        some { row2 with stock := s, version := row2.version + 1 }) := by
  have hcond : ownerWhere wid uid pid row2 = true := List.find?_some hfw
  have hres : (updateProductWrite σw (ownerWhere wid uid pid) none (some s)).find?
      (ownerWhere wid uid pid) =
      some { row2 with stock := s, version := row2.version + 1 } := by
    rw [find?_updateProductWrite, hfw, Option.map_some']
    rw [if_pos hcond]
    simp only [Option.getD_none, Option.getD_some]
  constructor
  · refine ⟨?_, hres⟩
    simp only [update_product, hfr]
    simp only [Bool.false_eq_true, if_false, Option.isNone_none, Option.isNone_some,
      Bool.not_false, Bool.and_true, Bool.and_false, Bool.false_and, Bool.true_and]
  · refine ⟨?_, hres⟩
    simp only [update_product, hfr]
    simp only [bne_self_eq_false, Bool.false_eq_true, if_false, Option.isNone_none,
      Option.isNone_some, Bool.not_false, Bool.and_true, Bool.and_false, Bool.false_and,
      Bool.true_and]

theorem update_product_version_check_optional_witness :
    (update_product [⟨1, 7, none, "apple", 10, 3⟩] [⟨1, 7, none, "apple", 12, 5⟩]
        1 none (some 2) none false none 7 =
        .ok (updateProductWrite [⟨1, 7, none, "apple", 12, 5⟩] (ownerWhere none 7 1) none (some 2))
      ∧ (updateProductWrite [⟨1, 7, none, "apple", 12, 5⟩]
          (ownerWhere none 7 1) none (some 2)).find? (ownerWhere none 7 1) =
        some ⟨1, 7, none, "apple", 2, 6⟩)
    ∧ (update_product [⟨1, 7, none, "apple", 10, 3⟩] [⟨1, 7, none, "apple", 12, 5⟩]
        1 none (some 2) (some (effVersion 3)) false none 7 =
        .ok (updateProductWrite [⟨1, 7, none, "apple", 12, 5⟩] (ownerWhere none 7 1) none (some 2))
      ∧ (updateProductWrite [⟨1, 7, none, "apple", 12, 5⟩]
          (ownerWhere none 7 1) none (some 2)).find? (ownerWhere none 7 1) =
        some ⟨1, 7, none, "apple", 2, 6⟩) :=
  update_product_version_check_optional [⟨1, 7, none, "apple", 10, 3⟩]
    [⟨1, 7, none, "apple", 12, 5⟩] 1 7 2 none ⟨1, 7, none, "apple", 10, 3⟩
    ⟨1, 7, none, "apple", 12, 5⟩ rfl rfl (by decide)

theorem runRetry_busy_shift {α ε : Type} (d : Int) (outcomes : Nat → AttemptOutcome α ε) :
    ∀ (k a rem : Nat), (∀ j, j < k → outcomes (a + j) = .busy) → k < rem →
      runRetry d outcomes a rem =
        ((runRetry d outcomes (a + k) (rem - k)).1,
          ((List.range k).map (fun j => d * 2 ^ (a + j))) ++
            (runRetry d outcomes (a + k) (rem - k)).2)
  | 0, a, rem, _, _ => by simp
  | k + 1, a, rem, hbusy, hlt => by
    obtain ⟨m, rfl⟩ : ∃ m, rem = m + 1 := ⟨rem - 1, by omega⟩
    have ha : outcomes a = .busy := by simpa using hbusy 0 (by omega)
    have hm : ¬ m = 0 := by omega
    have IH := runRetry_busy_shift d outcomes k (a + 1) m
      (fun j hj => by
        have h := hbusy (j + 1) (by omega)
        have e : a + 1 + j = a + (j + 1) := by omega
        rw [e]
        exact h)
      (by omega)
    show (match outcomes a with
      | .ok v => ((.ok v : RetryResult α ε), ([] : List Int))
      | .fail e => (.fail e, [])
      | .busy =>
        if m = 0 then (.busy, [])
        else
          let rest := runRetry d outcomes (a + 1) m
          (rest.1, d * 2 ^ a :: rest.2)) = _
    rw [ha]
    simp only [if_neg hm]
    rw [IH]
    have hidx : a + 1 + k = a + (k + 1) := by omega
    have hrem : m - k = m + 1 - (k + 1) := by omega
    rw [hidx, hrem]
    refine Prod.ext rfl ?_
    simp only [List.range_succ_eq_map, List.map_cons, List.map_map, List.cons_append]
    refine congrArg₂ _ (by rw [Nat.add_zero]) ?_
    refine congrArg₂ _ ?_ rfl
    apply List.map_congr_left
    intro j hj
    simp only [Function.comp]
    refine congrArg _ (congrArg _ (by omega))

/-- C6: `execute_with_retry` retries only on the `DatabaseBusyError` failure,
sleeping `retry_delay * 2 ^ attempt` before each retry; after a busy prefix
of length k it returns a success unchanged, propagates any non-busy failure
immediately (no further sleep, no retry), and when all `retry_attempts`
attempts are busy it runs exactly that many attempts, sleeping before each of
the `retry_attempts - 1` retries, and re-raises the busy error. -/
theorem execute_with_retry_policy {α ε : Type} (d : Int)
    (outcomes : Nat → AttemptOutcome α ε) (n : Nat) :
    (∀ (k : Nat) (v : α), k < n → (∀ j, j < k → outcomes j = .busy) → outcomes k = .ok v →
      execute_with_retry d outcomes n = (.ok v, (List.range k).map (fun j => d * 2 ^ j)))
    ∧ (∀ (k : Nat) (e : ε), k < n → (∀ j, j < k → outcomes j = .busy) → outcomes k = .fail e →
      execute_with_retry d outcomes n = (.fail e, (List.range k).map (fun j => d * 2 ^ j)))
    ∧ ((∀ j, j < n → outcomes j = .busy) → 1 ≤ n →
      execute_with_retry d outcomes n =
        (.busy, (List.range (n - 1)).map (fun j => d * 2 ^ j))) := by
  refine ⟨?_, ?_, ?_⟩
  · intro k v hk hbusy hok
    unfold execute_with_retry
    rw [runRetry_busy_shift d outcomes k 0 n (fun j hj => by simpa using hbusy j hj) hk]
    obtain ⟨m, hm⟩ : ∃ m, n - k = m + 1 := ⟨n - k - 1, by omega⟩
    rw [Nat.zero_add, hm]
    simp only [runRetry]
    rw [hok]
    simp [Nat.zero_add]
  · intro k e hk hbusy hfail
    unfold execute_with_retry
    rw [runRetry_busy_shift d outcomes k 0 n (fun j hj => by simpa using hbusy j hj) hk]
    obtain ⟨m, hm⟩ : ∃ m, n - k = m + 1 := ⟨n - k - 1, by omega⟩
    rw [Nat.zero_add, hm]
    simp only [runRetry]
    rw [hfail]
    simp [Nat.zero_add]
  · intro hbusy hn
    unfold execute_with_retry
    rw [runRetry_busy_shift d outcomes (n - 1) 0 n
      (fun j hj => by simpa using hbusy j (by omega)) (by omega)]
    have h1 : n - (n - 1) = 1 := by omega
    rw [Nat.zero_add, h1]
    simp only [runRetry]
    rw [hbusy (n - 1) (by omega)]
    simp [Nat.zero_add]

theorem execute_with_retry_policy_witness :
    execute_with_retry 100 (fun j => if j < 2 then .busy else .ok 42) 3 =
      ((.ok 42 : RetryResult Nat String), [100, 200])
    ∧ execute_with_retry 100 (fun j => if j = 0 then .busy else .fail "boom") 3 =
      ((.fail "boom" : RetryResult Nat String), [100])
    ∧ execute_with_retry 100 (fun _ => .busy) 3 =
      ((.busy : RetryResult Nat String), [100, 200]) :=
  ⟨(execute_with_retry_policy 100 (fun j => if j < 2 then .busy else .ok 42) 3).1 2 42
      (by decide) (by decide) (by decide),
    (execute_with_retry_policy 100 (fun j => if j = 0 then .busy else .fail "boom") 3).2.1
      1 "boom" (by decide) (by decide) (by decide),
    (execute_with_retry_policy 100 (fun _ => .busy) 3).2.2 (by decide) (by decide)⟩

/-- C5 counterexample: with `max_connections = 1` (so one pre-warmed idle
slot) and two threads, the interleaving "thread 0 polls the idle slot out of
the queue; thread 1 polls Empty; thread 1 passes the `active < max` check
under the lock and creates a connection; thread 0 then takes the lock and
bumps `active`" is a run of the implemented steps that reaches
`active = 2 > max_connections = 1`: the Empty observation is already stale
when the creation check runs, because the poll and the check are separate
critical sections. -/
theorem pool_bound_interleaved_violation :
    Relation.ReflTransGen (PoolStep 1)
        ⟨⟨0, 1⟩, [.start, .start]⟩ ⟨⟨2, 0⟩, [.acquired, .acquired]⟩
    ∧ ¬ ((2 : Int) ≤ ((1 : Nat) : Int)) := by
  constructor
  · have t1 : PoolStep 1 ⟨⟨0, 1⟩, [.start, .start]⟩ ⟨⟨0, 0⟩, [.gotConn, .start]⟩ :=
      PoolStep.pollSuccess ⟨⟨0, 1⟩, [.start, .start]⟩ 0 rfl (by decide)
    have t2 : PoolStep 1 ⟨⟨0, 0⟩, [.gotConn, .start]⟩ ⟨⟨0, 0⟩, [.gotConn, .sawEmpty]⟩ :=
      PoolStep.pollEmpty ⟨⟨0, 0⟩, [.gotConn, .start]⟩ 1 rfl rfl
    have t3 : PoolStep 1 ⟨⟨0, 0⟩, [.gotConn, .sawEmpty]⟩ ⟨⟨1, 0⟩, [.gotConn, .acquired]⟩ :=
      PoolStep.lockCreate ⟨⟨0, 0⟩, [.gotConn, .sawEmpty]⟩ 1 rfl (by decide)
    have t4 : PoolStep 1 ⟨⟨1, 0⟩, [.gotConn, .acquired]⟩ ⟨⟨2, 0⟩, [.acquired, .acquired]⟩ :=
      PoolStep.lockIncr ⟨⟨1, 0⟩, [.gotConn, .acquired]⟩ 0 rfl
    exact Relation.ReflTransGen.tail
      (Relation.ReflTransGen.tail (Relation.ReflTransGen.tail
        (Relation.ReflTransGen.single t1) t2) t3) t4
  · decide

theorem poolInv_preserved {maxConn : Nat} {s s2 : PoolSt}
    (hstep : PoolAtomicStep maxConn s s2) (hinv : poolInv maxConn s) :
    poolInv maxConn s2 := by
  cases hstep <;> simp only [poolInv] at hinv ⊢ <;> omega

/-- C5 (amended): when the two critical sections of each acquire are not
interleaved with other threads (serialized semantics), every state reachable
from the freshly initialized pool (`min 3 max_connections` pre-warmed idle
slots, `active = 0`) satisfies `active ≤ max_connections` — with creation
happening only under the `active < max_connections` check; and a single
thread polling a saturated pool fails with `ConnectionTimeoutError` once the
cumulative wait reaches the acquire timeout instead of exceeding the bound. -/
theorem pool_bound_serialized_and_timeout (maxConn : Nat) :
    (∀ s : PoolSt, Relation.ReflTransGen (PoolAtomicStep maxConn) ⟨0, min 3 maxConn⟩ s →
      s.active ≤ maxConn)
    ∧ (∀ (t : Int) (fuel : Nat) (active : Int) (idle : Nat),
        idle = 0 → ¬ active < maxConn → 1 ≤ fuel →
        ∀ e : Int, t ≤ e + fuel * 100 →
        acquireLoop maxConn t active idle fuel e = .timeoutErr) := by
  constructor
  · intro s h
    have hinv : poolInv maxConn s := by
      induction h with
      | refl =>
        simp only [poolInv]
        have := Nat.min_le_right 3 maxConn
        omega
      | tail hab hbc ih => exact poolInv_preserved hbc ih
    simp only [poolInv] at hinv
    omega
  · intro t fuel active idle h1 h2
    subst h1
    induction fuel with
    | zero => intro h3; omega
    | succ n ih =>
      intro _ e h4
      simp only [acquireLoop]
      rw [if_neg (by omega : ¬ (1 : Nat) ≤ 0)]
      rw [if_neg h2]
      by_cases hto : t ≤ e + 100
      · rw [if_pos hto]
      · rw [if_neg hto]
        have hn : 1 ≤ n := by
          by_contra hc
          push_neg at hc
          interval_cases n <;> omega
        exact ih hn (e + 100 + 50) (by push_cast at h4 ⊢; omega)

theorem pool_bound_serialized_and_timeout_witness :
    ((⟨1, 1⟩ : PoolSt).active ≤ ((2 : Nat) : Int))
    ∧ acquireLoop 2 300 2 0 3 0 = .timeoutErr :=
  ⟨(pool_bound_serialized_and_timeout 2).1 ⟨1, 1⟩
      (Relation.ReflTransGen.single (PoolAtomicStep.takeIdle ⟨0, 2⟩ (by decide))),
    (pool_bound_serialized_and_timeout 2).2 300 3 2 0 rfl (by decide) (by decide) 0 (by decide)⟩

/-- C7 counterexample: when the defensive `conn.rollback()` raises,
`_release_connection` jumps to the outer exception handler before ever
reaching the lock section, so `active` is not decremented: with
`active = 5` before the call it is still 5 afterwards, not 4. -/
theorem release_rollback_exception_no_decrement :
    (release_connection 10 5 0 true true).1 = 5 ∧ ¬ ((5 : Int) = 5 - 1) := by
  decide

/-- C7 (amended): `_release_connection` decrements `active` by exactly 1 in
the healthy-requeue, broken-discard and queue-full-close branches; but in
the branch where the defensive rollback itself raises, the decrement is
skipped and `active` is unchanged. -/
theorem release_decrements_active_unless_rollback_raises
    (maxConn : Nat) (active : Int) (idle : Nat) (probeHealthy : Bool) :
    (release_connection maxConn active idle false probeHealthy).1 = active - 1
    ∧ (release_connection maxConn active idle true probeHealthy).1 = active := by
  refine ⟨?_, rfl⟩
  simp only [release_connection, Bool.false_eq_true, if_false]
  cases probeHealthy
  · rfl
  · simp only [Bool.not_true, Bool.false_eq_true, if_false]
    by_cases h : idle < maxConn
    · rw [if_pos h]
    · rw [if_neg h]

end AgrisaleWS
